import Mathlib

/-
Verification of the tdk-invensense MPU-9250 movement-sensor driver
(package mpu9250, file mpu9250.go).

The driver is embedded shallowly:
* Go `float64` values are modelled as exact rationals (every constant in the
  driver — 250/32768, 9.81, 333.87, ... — is a short decimal, so all the
  arithmetic the claims mention is exact over ℚ).
* Go `error` values are modelled structurally: one constructor per distinct
  error construction site in the driver.
* The I2C bus (an external collaborator, injected in tests) is modelled as a
  pair of response functions.
* `movementsensor.LastError` lives in the host runtime library
  (go.viam.com/rdk), whose source is not part of this repository; it is
  modelled from the spec (see its doc comment).
-/

namespace TdkInvensense

/-- Go error values, one constructor per construction site in the driver:
`bus` stands for an arbitrary error produced by the underlying I2C transport
(`OpenHandle` / `ReadBlockData` / `WriteByteData`), `wrapped` is the
`errors.Wrap` performed by `addressReadError`, `device` is the
`errors.Errorf` of `unexpectedDeviceError`, `wake` is the `errors.Errorf`
wrapping a failed wake-up write in `makeMpu9250`, and `unimplementedMethod`
stands for the fixed `movementsensor.ErrMethodUnimplemented...` sentinel
errors of the host runtime. -/
inductive GoError where
  | bus (code : Nat)
  | wrapped (address : Nat) (busName : String) (inner : GoError)
  | device (address response : Nat)
  | wake (inner : GoError)
  | unimplementedMethod (method : String)
deriving DecidableEq, Repr

/-- Source `addressReadError`: wraps a transport error with the address and
bus name (the model keeps the data, not the formatted message). -/
def addressReadError (err : GoError) (address : Nat) (bus : String) : GoError :=
  GoError.wrapped address bus err

/-- Source `unexpectedDeviceError`: a fresh error recording the configured
address and the byte the identity register actually returned. -/
def unexpectedDeviceError (address defaultAddress : Nat) : GoError :=
  GoError.device address defaultAddress

def defaultAddressRegister : Nat := 117

def expectedDefaultAddress : Nat := 0x68

def expectedConfigurationReadAddress : Nat := 0x71

def alternateAddress : Nat := 0x69

/-- The I2C transport collaborator: per-transaction block read and byte
write at the device address (the per-transaction `OpenHandle`/`Close`
framing of the source folds into the result of each transaction; an
`OpenHandle` failure surfaces as the transaction's error, exactly as
`readBlock`/`writeByte` propagate it). -/
structure I2C where
  readBlockData : Nat → Nat → Except GoError (List Nat)
  writeByteData : Nat → Nat → Except GoError Unit

/-- Source `readBlock`: open a handle, read `length` bytes at `register`. -/
def readBlock (bus : I2C) (register length : Nat) : Except GoError (List Nat) :=
  bus.readBlockData register length

/-- Source `readByte`: a 1-byte block read; the source indexes `result[0]`,
which for a length-respecting bus is the head of the returned block. -/
def readByte (bus : I2C) (register : Nat) : Except GoError Nat :=
  match readBlock bus register 1 with
  | .error e => .error e
  | .ok result => .ok (result.headD 0)

/-- Source `utils.Int16FromBytesBE` (big-endian unsigned 16-bit part):
bytes are modelled as naturals taken mod 256. -/
def uint16FromBytesBE (hi lo : Nat) : Nat :=
  (hi % 256) * 256 + lo % 256

/-- Source `utils.Int16FromBytesBE`: big-endian signed 16-bit (two's
complement) interpretation of two bytes. -/
def int16FromBytesBE (hi lo : Nat) : Int :=
  let u := uint16FromBytesBE hi lo
  if u < 32768 then (u : Int) else (u : Int) - 65536

/-- The gyro branch of source `getReadingScales`: `gyroScale` starts at the
zero value of `float64`; the `switch` on the byte read from register 27 has
cases `00`, `01`, `10`, `11`, which in Go are the integers zero, one, ten
and eleven (the first two octal, the last two decimal), and an empty
`default` that leaves the scale at zero. -/
def gyroScaleOf (result : Nat) : ℚ :=
  if result = 0 then 250 / 32768
  else if result = 1 then 500 / 32768
  else if result = 10 then 1000 / 32768
  else if result = 11 then 2000 / 32768
  else 0

/-- The accelerometer branch of source `getReadingScales`: same `switch`
shape on the byte read from register 28. -/
def accelScaleOf (result : Nat) : ℚ :=
  if result = 0 then 2 / 32768
  else if result = 1 then 4 / 32768
  else if result = 10 then 8 / 32768
  else if result = 11 then 16 / 32768
  else 0

/-- Source `getReadingScales`: read register 27, then register 28, and map
each byte through the corresponding `switch`. -/
def getReadingScales (bus : I2C) : Except GoError (ℚ × ℚ) :=
  match readByte bus 27 with
  | .error e => .error e
  | .ok r27 =>
    match readByte bus 28 with
    | .error e => .error e
    | .ok r28 => .ok (gyroScaleOf r27, accelScaleOf r28)

/-- A mock bus whose every register holds a fixed byte given by `regs`, and
whose writes always succeed (the shape the repository's tests inject). -/
def regBus (regs : Nat → Nat) : I2C where
  readBlockData := fun register length => .ok (List.replicate length (regs register))
  writeByteData := fun _ _ => .ok ()

/-- C1: the scale lookup does not implement the documented table. Gyro codes
2 and 3 (and accel codes 2 and 3) fall through to the empty default case and
leave the scale at zero instead of selecting 1000/32768, 2000/32768 (resp.
8/32768, 16/32768); instead the decimal register values 10 and 11 select the
upper table entries, so the selection is over the whole byte, not its low 2
bits. The first two codes do match the documented table. -/
theorem getReadingScales_table_deviates :
    gyroScaleOf 0 = 250 / 32768 ∧ gyroScaleOf 1 = 500 / 32768 ∧
    gyroScaleOf 2 = 0 ∧ gyroScaleOf 3 = 0 ∧
    gyroScaleOf 2 ≠ 1000 / 32768 ∧ gyroScaleOf 3 ≠ 2000 / 32768 ∧
    gyroScaleOf 10 = 1000 / 32768 ∧ gyroScaleOf 11 = 2000 / 32768 ∧
    accelScaleOf 0 = 2 / 32768 ∧ accelScaleOf 1 = 4 / 32768 ∧
    accelScaleOf 2 = 0 ∧ accelScaleOf 3 = 0 ∧
    accelScaleOf 2 ≠ 8 / 32768 ∧ accelScaleOf 3 ≠ 16 / 32768 ∧
    accelScaleOf 10 = 8 / 32768 ∧ accelScaleOf 11 = 16 / 32768 ∧
    getReadingScales (regBus (fun _ => 2)) = .ok (0, 0) ∧
    getReadingScales (regBus (fun _ => 0)) = .ok (250 / 32768, 2 / 32768) := by
  refine ⟨rfl, rfl, rfl, rfl, by norm_num [gyroScaleOf], by norm_num [gyroScaleOf],
    rfl, rfl, rfl, rfl, rfl, rfl, by norm_num [accelScaleOf], by norm_num [accelScaleOf],
    rfl, rfl, rfl, rfl⟩

/-- Modelled from the spec: `movementsensor.LastError` comes from the host
runtime library (go.viam.com/rdk); its source is not part of this
repository. The spec describes it as a sliding-window fault tracker over the
last `size` transport attempts that reports a fault only when at least
`threshold` of them failed. The window stores the outcome of each recorded
attempt, most recent first (`some e` is a failed attempt). -/
structure LastError where
  size : Nat
  threshold : Nat
  window : List (Option GoError)
deriving DecidableEq, Repr

/-- Modelled from the spec: a fresh tracker with an empty window, as
constructed by `movementsensor.NewLastError(size, threshold)`. -/
def NewLastError (size threshold : Nat) : LastError :=
  ⟨size, threshold, []⟩

/-- Modelled from the spec: record one attempt, keeping only the most recent
`size` outcomes. -/
def LastError.set (le : LastError) (err : Option GoError) : LastError :=
  { le with window := (err :: le.window).take le.size }

/-- Modelled from the spec: report the most recent failure when at least
`threshold` of the recorded attempts failed, and no fault otherwise. -/
def LastError.get (le : LastError) : Option GoError :=
  if le.threshold ≤ (le.window.filter Option.isSome).length then
    (le.window.filterMap id).head?
  else none

/-- A 3-vector of (exact-rational) floats; stands for both
`spatialmath.AngularVelocity` and `r3.Vector` of the source. -/
structure Vector3 where
  x : ℚ
  y : ℚ
  z : ℚ
deriving DecidableEq, Repr

/-- The sensor object (source struct `mpu9250`), restricted to the fields
the claims are about. The scale factors are stored per instance here; the
source keeps them in the package-level variables `gyroScale`/`accelScale`,
assigned exactly once during `makeMpu9250`. `angularVelocity`,
`temperature` and `linearAcceleration` are the mutex-guarded snapshot; the
mutex serialises snapshot access and is not itself modelled. -/
structure Mpu9250 where
  i2cAddress : Nat
  gyroScale : ℚ
  accelScale : ℚ
  angularVelocity : Vector3
  temperature : ℚ
  linearAcceleration : Vector3
  err : LastError
deriving DecidableEq, Repr

/-- Source `setScale`: multiply the decoded sample by the scale factor. -/
def setScale (value : Int) (maxValue : ℚ) : ℚ :=
  (value : ℚ) * maxValue

/-- Source `toAngularVelocity`: decode three big-endian int16 samples from
6 bytes and scale each by the gyro scale (passed explicitly here in place
of the package-level variable). -/
def toAngularVelocity (data : List Nat) (gyroScale : ℚ) : Vector3 :=
  let gx := int16FromBytesBE (data.getD 0 0) (data.getD 1 0)
  let gy := int16FromBytesBE (data.getD 2 0) (data.getD 3 0)
  let gz := int16FromBytesBE (data.getD 4 0) (data.getD 5 0)
  ⟨setScale gx gyroScale, setScale gy gyroScale, setScale gz gyroScale⟩

/-- Source `toLinearAcceleration`: decode three big-endian int16 samples
from 6 bytes, scale each by the accel scale, and convert g to m/s² by
multiplying by 9.81. -/
def toLinearAcceleration (data : List Nat) (accelScale : ℚ) : Vector3 :=
  let x := int16FromBytesBE (data.getD 0 0) (data.getD 1 0)
  let y := int16FromBytesBE (data.getD 2 0) (data.getD 3 0)
  let z := int16FromBytesBE (data.getD 4 0) (data.getD 5 0)
  ⟨setScale x accelScale * (981 / 100),
   setScale y accelScale * (981 / 100),
   setScale z accelScale * (981 / 100)⟩

/-- The temperature conversion of the poll loop, as a function of the
decoded sample: `float64(...)/333.87 + 21.0`. -/
def tempCelsius (decoded : Int) : ℚ :=
  (decoded : ℚ) / (33387 / 100) + 21

/-- The temperature bytes of a burst read, decoded as the poll loop does:
`utils.Int16FromBytesBE(rawData[6:8])` fed to the conversion. -/
def temperatureFromBytes (hi lo : Nat) : ℚ :=
  tempCelsius (int16FromBytesBE hi lo)

/-- Source `makeMpu9250`, with the bus injected (as the repository's tests
do) and the context/logging glue dropped: resolve the address, perform the
identity check on register 117, wake the chip by writing 0 to register 107,
resolve the measurement scales, and return the initial sensor object (the
snapshot starts at Go zero values, the tracker is `NewLastError(10, 5)`).
Any failing step aborts construction with the corresponding error. -/
def makeMpu9250 (bus : I2C) (i2cBus : String) (useAlternateI2CAddress : Bool) :
    Except GoError Mpu9250 :=
  let address := if useAlternateI2CAddress then alternateAddress else expectedDefaultAddress
  match readByte bus defaultAddressRegister with
  | .error e => .error (addressReadError e address i2cBus)
  | .ok defaultAddress =>
    if defaultAddress ≠ expectedConfigurationReadAddress then
      .error (unexpectedDeviceError address defaultAddress)
    else
      match bus.writeByteData 107 0 with
      | .error e => .error (GoError.wake e)
      | .ok _ =>
        match getReadingScales bus with
        | .error e => .error e
        | .ok scales =>
          .ok { i2cAddress := address
                gyroScale := scales.1
                accelScale := scales.2
                angularVelocity := ⟨0, 0, 0⟩
                temperature := 0
                linearAcceleration := ⟨0, 0, 0⟩
                err := NewLastError 10 5 }

/-- One tick of the background poll loop, applied to the outcome of this
tick's 14-byte burst read at register 59: the outcome is recorded in the
tracker no matter what; on failure the decode is skipped (the snapshot is
left as it was) and the loop continues; on success the three snapshot
fields are replaced with the decoded values (accel bytes 0..5, temperature
bytes 6..7, gyro bytes 8..13). -/
def pollTick (mpu : Mpu9250) (readResult : Except GoError (List Nat)) : Mpu9250 :=
  match readResult with
  | .error e => { mpu with err := mpu.err.set (some e) }
  | .ok rawData =>
    { mpu with
      err := mpu.err.set none
      linearAcceleration := toLinearAcceleration (rawData.take 6) mpu.accelScale
      temperature := temperatureFromBytes (rawData.getD 6 0) (rawData.getD 7 0)
      angularVelocity := toAngularVelocity ((rawData.drop 8).take 6) mpu.gyroScale }

/-- The poll loop run over a finite schedule of burst-read outcomes, one
per tick. -/
def runTicks (mpu : Mpu9250) (reads : List (Except GoError (List Nat))) : Mpu9250 :=
  reads.foldl pollTick mpu

/-- Source method `AngularVelocity`: the cached snapshot value together
with the tracker verdict. -/
def Mpu9250.AngularVelocity (mpu : Mpu9250) : Vector3 × Option GoError :=
  (mpu.angularVelocity, mpu.err.get)

/-- Source method `LinearVelocity`: a fixed unimplemented-method error. -/
def Mpu9250.LinearVelocity (_mpu : Mpu9250) : Vector3 × Option GoError :=
  (⟨0, 0, 0⟩, some (GoError.unimplementedMethod "LinearVelocity"))

/-- Source method `LinearAcceleration`: short-circuits to the zero vector
and the tracker verdict when faulted, and otherwise returns the cached
snapshot value with no error. -/
def Mpu9250.LinearAcceleration (mpu : Mpu9250) : Vector3 × Option GoError :=
  match mpu.err.get with
  | some lastError => (⟨0, 0, 0⟩, some lastError)
  | none => (mpu.linearAcceleration, none)

/-- Host runtime `spatialmath.OrientationVector`, and the value
`spatialmath.NewOrientationVector()` returns (unit z axis, zero angle). -/
structure OrientationVector where
  ox : ℚ
  oy : ℚ
  oz : ℚ
  theta : ℚ
deriving DecidableEq, Repr

def NewOrientationVector : OrientationVector :=
  ⟨0, 0, 1, 0⟩

/-- Host library `geo.Point`, and `geo.NewPoint(0, 0)`. -/
structure GeoPoint where
  lat : ℚ
  lng : ℚ
deriving DecidableEq, Repr

/-- Source method `Orientation`: a fixed unimplemented-method error. -/
def Mpu9250.Orientation (_mpu : Mpu9250) : OrientationVector × Option GoError :=
  (NewOrientationVector, some (GoError.unimplementedMethod "Orientation"))

/-- Source method `CompassHeading`: a fixed unimplemented-method error. -/
def Mpu9250.CompassHeading (_mpu : Mpu9250) : ℚ × Option GoError :=
  (0, some (GoError.unimplementedMethod "CompassHeading"))

/-- Source method `Position`: a fixed unimplemented-method error. -/
def Mpu9250.Position (_mpu : Mpu9250) : GeoPoint × ℚ × Option GoError :=
  (⟨0, 0⟩, 0, some (GoError.unimplementedMethod "Position"))

/-- The values a `Readings` map entry can hold. -/
inductive ReadingValue where
  | vec (v : Vector3)
  | num (q : ℚ)
deriving DecidableEq, Repr

/-- Source method `Readings`: under the lock, build a map with the three
snapshot entries (modelled as an association list in insertion order) and
return it with the tracker verdict. -/
def Mpu9250.Readings (mpu : Mpu9250) : List (String × ReadingValue) × Option GoError :=
  ([("linear_acceleration", ReadingValue.vec mpu.linearAcceleration),
    ("temperature_celsius", ReadingValue.num mpu.temperature),
    ("angular_velocity", ReadingValue.vec mpu.angularVelocity)],
   mpu.err.get)

/-- The observable steps of `Close`, in order. -/
inductive CloseStep where
  | stopWorkers
  | sleepWrite (register value : Nat)
deriving DecidableEq, Repr

/-- Source method `Close`: stop the background workers (blocking), then
write `1 << 6` (the Sleep bit) to register 107; a failure of that write is
logged and also returned — the returned error is `nil` exactly when the
write succeeds. -/
def Mpu9250.Close (_mpu : Mpu9250) (bus : I2C) : List CloseStep × Option GoError :=
  ([CloseStep.stopWorkers, CloseStep.sleepWrite 107 (1 <<< 6)],
   match bus.writeByteData 107 (1 <<< 6) with
   | .error e => some e
   | .ok _ => none)

/-- The complete method set of the `mpu9250` facade, one constructor per
method declared on the `*mpu9250` receiver in the source. -/
inductive Mpu9250Method where
  | angularVelocityMethod
  | linearVelocityMethod
  | linearAccelerationMethod
  | orientationMethod
  | compassHeadingMethod
  | positionMethod
  | accuracyMethod
  | readingsMethod
  | propertiesMethod
  | closeMethod
deriving DecidableEq, Repr, Fintype

/-- The Go name of each facade method. -/
def methodName : Mpu9250Method → String
  | .angularVelocityMethod => "AngularVelocity"
  | .linearVelocityMethod => "LinearVelocity"
  | .linearAccelerationMethod => "LinearAcceleration"
  | .orientationMethod => "Orientation"
  | .compassHeadingMethod => "CompassHeading"
  | .positionMethod => "Position"
  | .accuracyMethod => "Accuracy"
  | .readingsMethod => "Readings"
  | .propertiesMethod => "Properties"
  | .closeMethod => "Close"

/-- The simulated bus of the end-to-end scenarios: the identity register
(117) reads back 0x71 and every other register reads back 0 (so both scale
codes resolve to 0); writes succeed. -/
def scenarioBus : I2C :=
  regBus (fun register => if register = 117 then 0x71 else 0)

/-- The sensor makeMpu9250 builds on the scenario bus (construction
succeeds, so the fallback arm is never taken). -/
def scenarioSensor : Mpu9250 :=
  match makeMpu9250 scenarioBus "1" false with
  | .ok sensor => sensor
  | .error _ => ⟨0, 0, 0, ⟨0, 0, 0⟩, 0, ⟨0, 0, 0⟩, NewLastError 10 5⟩

/-- C2: in every faulted state (the tracker reports a non-nil error),
LinearAcceleration returns the zero vector with that error while
AngularVelocity returns the cached angular-velocity snapshot with the same
error. -/
theorem faulted_accessor_asymmetry (mpu : Mpu9250) (e : GoError)
    (hfault : mpu.err.get = some e) :
    mpu.LinearAcceleration = (⟨0, 0, 0⟩, some e) ∧
    mpu.AngularVelocity = (mpu.angularVelocity, some e) := by
  unfold Mpu9250.LinearAcceleration Mpu9250.AngularVelocity
  rw [hfault]
  exact ⟨rfl, rfl⟩

/-- Witness for C2, end-to-end scenario A: construct on the scenario bus,
record 10 consecutive burst-read failures; AngularVelocity still returns
the (never set, hence zero) cached vector plus the fault error, and
LinearAcceleration the zero vector plus the same error. -/
theorem faulted_accessor_asymmetry_witness :
    (runTicks scenarioSensor
        (List.replicate 10 (Except.error (GoError.bus 7)))).LinearAcceleration
      = (⟨0, 0, 0⟩, some (GoError.bus 7)) ∧
    (runTicks scenarioSensor
        (List.replicate 10 (Except.error (GoError.bus 7)))).AngularVelocity
      = (⟨0, 0, 0⟩, some (GoError.bus 7)) := by
  have h := faulted_accessor_asymmetry
    (runTicks scenarioSensor (List.replicate 10 (Except.error (GoError.bus 7))))
    (GoError.bus 7) (by rfl)
  exact ⟨h.1, h.2.trans (by rfl)⟩

/-- C4: the poll loop publishes temperature `decoded / 333.87 + 21.0` where
`decoded` is the big-endian signed 16-bit interpretation of bytes 6 and 7 of
the burst read; bytes (0,0) give exactly 21 °C, and the conversion maps the
raw value 33387 exactly to 121 °C. -/
theorem poll_temperature_conversion (mpu : Mpu9250) (rawData : List Nat) :
    (pollTick mpu (.ok rawData)).temperature
      = (int16FromBytesBE (rawData.getD 6 0) (rawData.getD 7 0) : ℚ) / (33387 / 100) + 21 ∧
    temperatureFromBytes 0 0 = 21 ∧
    tempCelsius 33387 = 121 := by
  refine ⟨rfl, ?_, ?_⟩
  · norm_num [temperatureFromBytes, tempCelsius, int16FromBytesBE, uint16FromBytesBE]
  · norm_num [tempCelsius]

/-- C5: when the identity-register read succeeds but returns a byte other
than 0x71, construction fails with `unexpectedDeviceError` for the resolved
address and that byte — an error distinct from every `addressReadError`
transport wrapper — and never returns a sensor. -/
theorem identity_mismatch_aborts (bus : I2C) (busName : String) (useAlt : Bool) (b : Nat)
    (hread : readByte bus defaultAddressRegister = .ok b)
    (hne : b ≠ expectedConfigurationReadAddress) :
    makeMpu9250 bus busName useAlt
      = .error (unexpectedDeviceError
          (if useAlt then alternateAddress else expectedDefaultAddress) b) ∧
    (∀ e address s,
      unexpectedDeviceError (if useAlt then alternateAddress else expectedDefaultAddress) b
        ≠ addressReadError e address s) ∧
    ∀ sensor : Mpu9250, makeMpu9250 bus busName useAlt ≠ .ok sensor := by
  have hmk : makeMpu9250 bus busName useAlt
      = .error (unexpectedDeviceError
          (if useAlt then alternateAddress else expectedDefaultAddress) b) := by
    unfold makeMpu9250
    rw [hread]
    simp [hne]
  refine ⟨hmk, ?_, ?_⟩
  · intro e address s
    simp [unexpectedDeviceError, addressReadError]
  · intro sensor h
    rw [hmk] at h
    exact Except.noConfusion h

/-- A bus whose identity register answers 0x70 instead of 0x71. -/
def mismatchBus : I2C :=
  regBus (fun _ => 0x70)

/-- Witness for C5 at a concrete bus answering 0x70. -/
theorem identity_mismatch_aborts_witness :
    makeMpu9250 mismatchBus "one" false
      = .error (unexpectedDeviceError
          (if false then alternateAddress else expectedDefaultAddress) 0x70) :=
  (identity_mismatch_aborts mismatchBus "one" false 0x70 (by rfl) (by decide)).1

/-- A bus on which the sleep-mode write fails. -/
def failingWriteBus : I2C where
  readBlockData := fun _ length => .ok (List.replicate length 0)
  writeByteData := fun _ _ => .error (GoError.bus 3)

/-- C6 counterexample: on a bus whose final write fails, Close returns the
write error rather than nil, so it does propagate the failure. -/
theorem close_propagates_write_failure :
    (scenarioSensor.Close failingWriteBus).2 = some (GoError.bus 3) ∧
    (scenarioSensor.Close failingWriteBus).2 ≠ none := by
  exact ⟨rfl, by decide⟩

/-- C6 as amended: Close stops the background workers first, then issues
the sleep-mode write of `1 << 6` to register 107; it returns nil exactly
when that write succeeds (a failure is logged and returned). -/
theorem close_order_and_result (mpu : Mpu9250) (bus : I2C) :
    (mpu.Close bus).1 = [CloseStep.stopWorkers, CloseStep.sleepWrite 107 (1 <<< 6)] ∧
    ((mpu.Close bus).2 = none ↔ bus.writeByteData 107 (1 <<< 6) = .ok ()) := by
  refine ⟨rfl, ?_⟩
  unfold Mpu9250.Close
  cases h : bus.writeByteData 107 (1 <<< 6) with
  | error e => simp [h]
  | ok u => cases u; simp [h]

/-- C7: a tick whose burst read fails leaves the published snapshot
(angular velocity, linear acceleration, temperature) unchanged, records the
error in the tracker, and the loop goes on to process the remaining
ticks. -/
theorem failed_tick_preserves_snapshot (mpu : Mpu9250) (e : GoError)
    (rest : List (Except GoError (List Nat))) :
    (pollTick mpu (.error e)).angularVelocity = mpu.angularVelocity ∧
    (pollTick mpu (.error e)).linearAcceleration = mpu.linearAcceleration ∧
    (pollTick mpu (.error e)).temperature = mpu.temperature ∧
    (pollTick mpu (.error e)).err = mpu.err.set (some e) ∧
    runTicks mpu (Except.error e :: rest) = runTicks (pollTick mpu (.error e)) rest :=
  ⟨rfl, rfl, rfl, rfl, rfl⟩

/-- C8 counterexample: the facade has no Temperature method — the name
Temperature is not among the names of the methods declared on the mpu9250
receiver. -/
theorem no_temperature_method :
    "Temperature" ∉ Finset.image methodName Finset.univ := by
  decide

/-- C8 as amended: the unsupported capability methods are LinearVelocity,
Orientation, CompassHeading and Position; each returns a fixed
unimplemented-method error, identical in every sensor state (so never
routed through the windowed tracker) and distinct from every transport
error, transport wrapper and device-mismatch error. -/
theorem unsupported_methods_fixed_errors (mpu other : Mpu9250)
    (code address response : Nat) (inner : GoError) (busName : String) :
    mpu.LinearVelocity = (⟨0, 0, 0⟩, some (GoError.unimplementedMethod "LinearVelocity")) ∧
    mpu.Orientation = (NewOrientationVector, some (GoError.unimplementedMethod "Orientation")) ∧
    mpu.CompassHeading = (0, some (GoError.unimplementedMethod "CompassHeading")) ∧
    mpu.Position = (⟨0, 0⟩, 0, some (GoError.unimplementedMethod "Position")) ∧
    mpu.LinearVelocity = other.LinearVelocity ∧
    mpu.Orientation = other.Orientation ∧
    mpu.CompassHeading = other.CompassHeading ∧
    mpu.Position = other.Position ∧
    ∀ m : String, GoError.unimplementedMethod m ≠ GoError.bus code ∧
      GoError.unimplementedMethod m ≠ addressReadError inner address busName ∧
      GoError.unimplementedMethod m ≠ unexpectedDeviceError address response := by
  refine ⟨rfl, rfl, rfl, rfl, rfl, rfl, rfl, rfl, fun m => ⟨?_, ?_, ?_⟩⟩ <;>
    simp [addressReadError, unexpectedDeviceError]

/-- The 14 raw bytes of end-to-end scenario B: accel raw (0, 0, 16384),
temperature raw 0, gyro raw (0, 0, 0). -/
def scenarioBRaw : List Nat :=
  [0, 0, 0, 0, 64, 0, 0, 0, 0, 0, 0, 0, 0, 0]

/-- toLinearAcceleration on an explicit 6-byte block, spelled out. -/
theorem toLinearAcceleration_bytes (b0 b1 b2 b3 b4 b5 : Nat) (s : ℚ) :
    toLinearAcceleration [b0, b1, b2, b3, b4, b5] s
      = ⟨setScale (int16FromBytesBE b0 b1) s * (981 / 100),
         setScale (int16FromBytesBE b2 b3) s * (981 / 100),
         setScale (int16FromBytesBE b4 b5) s * (981 / 100)⟩ :=
  rfl

/-- toAngularVelocity on an explicit 6-byte block, spelled out. -/
theorem toAngularVelocity_bytes (b0 b1 b2 b3 b4 b5 : Nat) (s : ℚ) :
    toAngularVelocity [b0, b1, b2, b3, b4, b5] s
      = ⟨setScale (int16FromBytesBE b0 b1) s,
         setScale (int16FromBytesBE b2 b3) s,
         setScale (int16FromBytesBE b4 b5) s⟩ :=
  rfl

/-- C9: with both scale codes resolved to 0 at init, a successful burst
read of scenario B publishes linear acceleration (0, 0, 981/100) — i.e.
Z = 16384 * (2/32768) * 9.81 = 9.81 m/s² exactly over ℚ — angular velocity
(0, 0, 0) and temperature 21 °C; and in general each published acceleration
axis is the decoded sample times accelScale times 9.81. -/
theorem scenario_b_decode (mpu : Mpu9250) (data : List Nat)
    (hg : mpu.gyroScale = gyroScaleOf 0) (ha : mpu.accelScale = accelScaleOf 0) :
    (pollTick mpu (.ok scenarioBRaw)).linearAcceleration = ⟨0, 0, 981 / 100⟩ ∧
    (pollTick mpu (.ok scenarioBRaw)).angularVelocity = ⟨0, 0, 0⟩ ∧
    (pollTick mpu (.ok scenarioBRaw)).temperature = 21 ∧
    toLinearAcceleration data mpu.accelScale
      = ⟨(int16FromBytesBE (data.getD 0 0) (data.getD 1 0) : ℚ) * mpu.accelScale * (981 / 100),
         (int16FromBytesBE (data.getD 2 0) (data.getD 3 0) : ℚ) * mpu.accelScale * (981 / 100),
         (int16FromBytesBE (data.getD 4 0) (data.getD 5 0) : ℚ) * mpu.accelScale * (981 / 100)⟩ := by
  refine ⟨?_, ?_, ?_, rfl⟩
  · rw [show (pollTick mpu (.ok scenarioBRaw)).linearAcceleration
        = toLinearAcceleration [0, 0, 0, 0, 64, 0] mpu.accelScale from rfl,
      toLinearAcceleration_bytes, ha]
    norm_num [setScale, int16FromBytesBE, uint16FromBytesBE, accelScaleOf]
  · rw [show (pollTick mpu (.ok scenarioBRaw)).angularVelocity
        = toAngularVelocity [0, 0, 0, 0, 0, 0] mpu.gyroScale from rfl,
      toAngularVelocity_bytes, hg]
    norm_num [setScale, int16FromBytesBE, uint16FromBytesBE, gyroScaleOf]
  · rw [show (pollTick mpu (.ok scenarioBRaw)).temperature
        = temperatureFromBytes 0 0 from rfl]
    norm_num [temperatureFromBytes, tempCelsius, int16FromBytesBE, uint16FromBytesBE]

/-- Witness for C9 at the concrete sensor constructed on the scenario bus
(whose scale codes both read 0). -/
theorem scenario_b_decode_witness :
    (pollTick scenarioSensor (.ok scenarioBRaw)).linearAcceleration = ⟨0, 0, 981 / 100⟩ ∧
    (pollTick scenarioSensor (.ok scenarioBRaw)).angularVelocity = ⟨0, 0, 0⟩ ∧
    (pollTick scenarioSensor (.ok scenarioBRaw)).temperature = 21 := by
  have h := scenario_b_decode scenarioSensor [] (by rfl) (by rfl)
  exact ⟨h.1, h.2.1, h.2.2.1⟩

/-- C10: Readings returns the association map with exactly the keys
linear_acceleration, temperature_celsius and angular_velocity (in insertion
order), holding the current snapshot values, paired with the tracker
verdict as the error. -/
theorem readings_map_exact (mpu : Mpu9250) :
    (mpu.Readings).1.map Prod.fst
      = ["linear_acceleration", "temperature_celsius", "angular_velocity"] ∧
    (mpu.Readings).1.lookup "linear_acceleration"
      = some (ReadingValue.vec mpu.linearAcceleration) ∧
    (mpu.Readings).1.lookup "temperature_celsius"
      = some (ReadingValue.num mpu.temperature) ∧
    (mpu.Readings).1.lookup "angular_velocity"
      = some (ReadingValue.vec mpu.angularVelocity) ∧
    (mpu.Readings).2 = mpu.err.get := by
  refine ⟨rfl, ?_, ?_, ?_, rfl⟩ <;> simp [Mpu9250.Readings, List.lookup]

/-- Taking `n` of an appended list is unchanged by pre-truncating the right
part to `n`. -/
theorem take_append_take {α : Type} (n : Nat) (xs ys : List α) :
    (xs ++ ys.take n).take n = (xs ++ ys).take n := by
  rw [List.take_append_eq_append_take, List.take_append_eq_append_take, List.take_take,
    Nat.min_eq_left (Nat.sub_le n xs.length)]

/-- Recording a sequence of attempts into a tracker whose window is within
bounds yields the window holding the most recent `size` outcomes (most
recent first), with size and threshold unchanged. -/
theorem foldl_set_eq (attempts : List (Option GoError)) (init : LastError)
    (hlen : init.window.length ≤ init.size) :
    attempts.foldl LastError.set init
      = ⟨init.size, init.threshold, (attempts.reverse ++ init.window).take init.size⟩ := by
  induction attempts generalizing init with
  | nil =>
    rw [List.foldl_nil, List.reverse_nil, List.nil_append, List.take_of_length_le hlen]
  | cons a as ih =>
    rw [List.foldl_cons, ih (init.set a) (by simp [LastError.set])]
    simp only [LastError.set, List.reverse_cons]
    rw [take_append_take, List.append_assoc, List.singleton_append]

/-- Keeping the payloads of a list of options has as many elements as
filtering to the present ones. -/
theorem length_filterMap_id {α : Type} (l : List (Option α)) :
    (l.filterMap id).length = (l.filter Option.isSome).length := by
  induction l with
  | nil => rfl
  | cons a as ih =>
    cases a with
    | none => simpa using ih
    | some x => simpa using ih

/-- C3: the tracker built by recording any sequence of attempts into
`NewLastError 10 5` reports a fault exactly when at least 5 of the 10 most
recent attempts failed, whatever the order of outcomes; with exactly 4
failures among the 10 most recent it reports no fault. -/
theorem fault_window_threshold (attempts : List (Option GoError)) :
    ((attempts.foldl LastError.set (NewLastError 10 5)).get.isSome = true
      ↔ 5 ≤ ((attempts.reverse.take 10).filter Option.isSome).length) ∧
    (((attempts.reverse.take 10).filter Option.isSome).length = 4 →
      (attempts.foldl LastError.set (NewLastError 10 5)).get = none) := by
  rw [foldl_set_eq attempts (NewLastError 10 5) (by simp [NewLastError])]
  simp only [NewLastError, List.append_nil]
  constructor
  · constructor
    · intro h
      by_cases hc : 5 ≤ ((attempts.reverse.take 10).filter Option.isSome).length
      · exact hc
      · rw [LastError.get, if_neg hc] at h
        exact absurd h (by simp)
    · intro hc
      rw [LastError.get, if_pos hc]
      have hpos : ((attempts.reverse.take 10).filterMap id).length ≠ 0 := by
        rw [length_filterMap_id]
        omega
      have hne : (attempts.reverse.take 10).filterMap id ≠ [] := by
        intro hnil
        rw [hnil] at hpos
        exact hpos rfl
      obtain ⟨y, ys, hys⟩ := List.exists_cons_of_ne_nil hne
      show ((attempts.reverse.take 10).filterMap id).head?.isSome = true
      rw [hys]
      rfl
  · intro h4
    rw [LastError.get, if_neg (by rw [h4]; norm_num)]

/-- Witness for C3: four failures then six successes give no fault; five
failures then five successes give a fault. -/
theorem fault_window_threshold_witness :
    ((List.replicate 4 (some (GoError.bus 1)) ++ List.replicate 6 none).foldl
        LastError.set (NewLastError 10 5)).get = none ∧
    ((List.replicate 5 (some (GoError.bus 1)) ++ List.replicate 5 none).foldl
        LastError.set (NewLastError 10 5)).get.isSome = true := by
  constructor
  · exact (fault_window_threshold
      (List.replicate 4 (some (GoError.bus 1)) ++ List.replicate 6 none)).2 (by decide)
  · exact (fault_window_threshold
      (List.replicate 5 (some (GoError.bus 1)) ++ List.replicate 5 none)).1.mpr (by decide)

end TdkInvensense
